import Mathlib

/-!
Shallow embedding of chrome-driver-rs (src/lib.rs).

The library exposes two async entry points:
  * `ensure_latest_driver(out_dir)` — fetch the latest-stable version from a
    metadata endpoint, map OS/arch to a platform triple, short-circuit if the
    executable already exists, otherwise download, unzip, and (on unix) chmod.
  * `check_version(driver_path)` — spawn the driver with `--version`.

External collaborators (reqwest, the serde_json parser, the zip decoder, the
filesystem and the process spawner) are modelled by an explicit environment
`Env`; network and filesystem effects are recorded in a `Trace` so that
frame/idempotence claims are statable.  The pure logic (JSON path lookup,
platform match, path construction, error classification, control flow) is
translated directly from the source.
-/

/-- JSON values, as produced by `serde_json::from_str`.  Numbers keep their
literal text: no claim inspects numeric values, and this avoids floating
point. -/
inductive Json where
  | null
  | bool (b : Bool)
  | num (lit : String)
  | str (s : String)
  | arr (elems : List Json)
  | obj (fields : List (String × Json))

/-- Key lookup in the field list of an object (the parsed map of `serde_json`
holds no duplicate keys, so first-match lookup models it exactly). -/
def lookupField : List (String × Json) → String → Json
  | [], _ => .null
  | (k, v) :: rest, key => if k = key then v else lookupField rest key

/-- Indexing `json[key]` on a `serde_json::Value`: returns the value of the field
on an object that has the key, and `Null` otherwise (the serde_json `Index`
impl for shared references never panics; it yields `Null` on a mismatch). -/
def Json.index : Json → String → Json
  | .obj fields, key => lookupField fields key
  | _, _ => .null

/-- The `Value::as_str` accessor: `Some s` exactly on JSON strings. -/
def Json.asStr : Json → Option String
  | .str s => some s
  | _ => none

/-- Error taxonomy of the library.  The source returns `Box<dyn Error>`, but
every failure site produces a distinguishable value: reqwest errors
(network), `serde_json::from_str` errors (parse), the literal
`"Failed to read version"` (missing field), the formatted
`"Unsupported OS: {os}"` (unsupported platform, carrying the OS string),
zip errors (archive), `create_dir_all`/`set_permissions` errors
(filesystem), and process spawn/wait errors (process). -/
inductive ChromeError where
  | networkError
  | parseError
  | missingField (msg : String)
  | unsupportedPlatform (os : String)
  | archiveError
  | filesystemError
  | processError
deriving DecidableEq

/-- Result of a successful install: lib.rs `DriverInfo`. -/
structure DriverInfo where
  driver_path : String
  version : String
deriving DecidableEq

/-- Version resolution from an already-parsed metadata document:
`json["channels"]["Stable"]["version"].as_str().ok_or("Failed to read version")`. -/
def resolveVersion (j : Json) : Except ChromeError String :=
  match (((j.index "channels").index "Stable").index "version").asStr with
  | some s => .ok s
  | none => .error (.missingField "Failed to read version")

/-- Version resolution from a fetched body.  The argument is the result of
`serde_json::from_str` on the body (`none` = the body is not valid JSON,
which the `?` on `from_str` surfaces as a parse error). -/
def resolveFromBody (parsed : Option Json) : Except ChromeError String :=
  match parsed with
  | none => .error .parseError
  | some j => resolveVersion j

/-- Platform detection: the `match env::consts::OS` block of
`ensure_latest_driver`, as a function of the OS and architecture strings.
Returns `(platform, exec_name, zip_name)`. -/
def platformTarget (os arch : String) : Except ChromeError (String × String × String) :=
  if os = "macos" then
    if arch = "aarch64" then
      .ok ("mac-arm64", "chromedriver", "chromedriver-mac-arm64")
    else
      .ok ("mac-x64", "chromedriver", "chromedriver-mac-x64")
  else if os = "windows" then
    .ok ("win64", "chromedriver.exe", "chromedriver-win64")
  else
    .error (.unsupportedPlatform os)

/-- The download URL template of step 4 of `ensure_latest_driver`. -/
def downloadUrl (version platform zip_name : String) : String :=
  "https://edgedl.me.gvt1.com/edgedl/chrome/chrome-for-testing/" ++ version
    ++ "/" ++ platform ++ "/" ++ zip_name ++ ".zip"

/-- Tests whether the last character of a path is the unix separator. -/
def endsWithSlash (a : String) : Bool :=
  match a.data.getLast? with
  | some c => c == '/'
  | none => false

/-- Rust `Path::join` on unix, for the relative component names joined here:
pushes a separator only when one is needed. -/
def pathJoin (a b : String) : String :=
  if a = "" then b
  else if endsWithSlash a then a ++ b
  else a ++ "/" ++ b

/-- Environment: the behavior of the external collaborators during one call.
`metadata` is the outcome of fetching and parsing the versions URL
(`.error` = the HTTP request failed; `.ok none` = body fetched but not valid
JSON; `.ok (some j)` = body parsed to `j`).  `download` maps an archive URL
to its bytes or a network failure.  `extract` is the zip decode/extract of
the bytes into a directory.  `mkdirOk` / `chmodOk` are the outcomes of
`create_dir_all` and `set_permissions`; `isUnix` selects the `cfg(unix)`
block. -/
structure Env where
  os : String
  arch : String
  metadata : Except Unit (Option Json)
  fsExists : String → Bool
  download : String → Except Unit (List Nat)
  mkdirOk : Bool
  extract : List Nat → String → Except Unit Unit
  isUnix : Bool
  chmodOk : Bool

/-- Effect trace of one call: HTTP requests performed, existence checks
performed, filesystem mutations attempted (mkdir, extract, chmod), and the
`set_permissions` calls as (path, mode) pairs. -/
structure Trace where
  requests : Nat
  existsChecks : Nat
  fsWrites : Nat
  chmods : List (String × Nat)
deriving DecidableEq

/-- The whole of `ensure_latest_driver`, step by step from lib.rs:
fetch+parse metadata (always the first action, one HTTP request), resolve
`channels.Stable.version`, detect the platform, build
`format!("{}/{}/{}", out_dir, zip_name, exec_name)`, short-circuit if a
filesystem entry exists there, else download the zip (second request),
`create_dir_all(out_dir)`, extract the archive into `out_dir`, and on unix
`set_permissions(out_dir.join(zip_name).join(exec_name), 0o755)`. -/
def ensure_latest_driver (env : Env) (out_dir : String) :
    Except ChromeError DriverInfo × Trace :=
  match env.metadata with
  | .error _ => (.error .networkError, ⟨1, 0, 0, []⟩)
  | .ok none => (.error .parseError, ⟨1, 0, 0, []⟩)
  | .ok (some j) =>
    match resolveVersion j with
    | .error e => (.error e, ⟨1, 0, 0, []⟩)
    | .ok version =>
      match platformTarget env.os env.arch with
      | .error e => (.error e, ⟨1, 0, 0, []⟩)
      | .ok (platform, exec_name, zip_name) =>
        let driver_path := out_dir ++ "/" ++ zip_name ++ "/" ++ exec_name
        if env.fsExists driver_path then
          (.ok ⟨driver_path, version⟩, ⟨1, 1, 0, []⟩)
        else
          match env.download (downloadUrl version platform zip_name) with
          | .error _ => (.error .networkError, ⟨2, 1, 0, []⟩)
          | .ok bytes =>
            if env.mkdirOk then
              match env.extract bytes out_dir with
              | .error _ => (.error .archiveError, ⟨2, 1, 2, []⟩)
              | .ok _ =>
                if env.isUnix then
                  let chmod_path := pathJoin (pathJoin out_dir zip_name) exec_name
                  if env.chmodOk then
                    (.ok ⟨driver_path, version⟩, ⟨2, 1, 3, [(chmod_path, 493)]⟩)
                  else
                    (.error .filesystemError, ⟨2, 1, 3, [(chmod_path, 493)]⟩)
                else
                  (.ok ⟨driver_path, version⟩, ⟨2, 1, 2, []⟩)
            else
              (.error .filesystemError, ⟨2, 1, 1, []⟩)

/-- The probe `check_version(driver_path)`: spawn the driver with
`--version` and await its status.  The argument is the OS outcome of
spawn+wait (`.error` = the process could not be spawned or waited on,
`.ok status` = it ran to completion with that exit status).  The returned
`Option Int` is the status the source prints as a diagnostic. -/
def check_version (spawnResult : Except Unit Int) : Except ChromeError Unit × Option Int :=
  match spawnResult with
  | .error _ => (.error .processError, none)
  | .ok status => (.ok (), some status)

/-! Concrete fixtures for witnesses and counterexamples. -/

/-- The metadata document of the example in the spec:
`{"channels":{"Stable":{"version":"124.0.6367.91"}}}`. -/
def jStable : Json :=
  .obj [("channels", .obj [("Stable", .obj [("version", .str "124.0.6367.91")])])]

/-- A metadata document whose stable version field is the empty string. -/
def jEmptyVersion : Json :=
  .obj [("channels", .obj [("Stable", .obj [("version", .str "")])])]

/-- A metadata document resolving to version `999.0.0.0`. -/
def jNine : Json :=
  .obj [("channels", .obj [("Stable", .obj [("version", .str "999.0.0.0")])])]

/-- A valid JSON document with no `channels.Stable.version` string. -/
def jNoVersion : Json :=
  .obj [("channels", .obj [("Stable", .obj [])])]

/-- Environment of a macOS arm64 machine whose output directory is already
populated (every existence check succeeds); the download endpoint and the
extractor would fail if they were ever consulted. -/
def envInstalled : Env :=
  ⟨"macos", "aarch64", .ok (some jStable), fun _ => true, fun _ => .error (),
    true, fun _ _ => .error (), true, true⟩

/-- Same machine and disk state as `envInstalled`, but the metadata endpoint
now serves version `999.0.0.0` and the download endpoint works. -/
def envInstalledNine : Env :=
  ⟨"macos", "aarch64", .ok (some jNine), fun _ => true, fun _ => .ok [80, 75],
    true, fun _ _ => .error (), true, true⟩

/-- Environment of a fresh macOS arm64 install: nothing on disk, download
succeeds, extraction succeeds, mkdir and chmod succeed. -/
def envFresh : Env :=
  ⟨"macos", "aarch64", .ok (some jStable), fun _ => false, fun _ => .ok [80, 75],
    true, fun _ _ => .ok (), true, true⟩

/-- Environment of a fresh install whose download endpoint serves bytes that
the zip decoder rejects. -/
def envBadZip : Env :=
  ⟨"macos", "aarch64", .ok (some jStable), fun _ => false, fun _ => .ok [0, 1],
    true, fun _ _ => .error (), true, true⟩

/-! Claim theorems. -/

/-- C2: the platform mapping is a pure function of (OS, arch): macos/aarch64
gives (mac-arm64, chromedriver, chromedriver-mac-arm64); macos with any
other arch gives (mac-x64, chromedriver, chromedriver-mac-x64); windows with
any arch gives (win64, chromedriver.exe, chromedriver-win64); any other OS
fails with the unsupported-platform error carrying that OS string. -/
theorem platform_mapping_exact (os arch : String)
    (hos : os ≠ "macos" ∧ os ≠ "windows") :
    platformTarget "macos" "aarch64"
        = .ok ("mac-arm64", "chromedriver", "chromedriver-mac-arm64") ∧
    (arch ≠ "aarch64" → platformTarget "macos" arch
        = .ok ("mac-x64", "chromedriver", "chromedriver-mac-x64")) ∧
    platformTarget "windows" arch
        = .ok ("win64", "chromedriver.exe", "chromedriver-win64") ∧
    platformTarget os arch = .error (.unsupportedPlatform os) := by
  refine ⟨rfl, ?_, rfl, ?_⟩
  · intro ha
    simp [platformTarget, ha]
  · simp [platformTarget, hos.1, hos.2]

/-- Witness for C2 at os = "linux", arch = "x86_64". -/
theorem platform_mapping_exact_witness :
    platformTarget "macos" "x86_64"
        = .ok ("mac-x64", "chromedriver", "chromedriver-mac-x64") ∧
    platformTarget "linux" "x86_64" = .error (.unsupportedPlatform "linux") := by
  have h := platform_mapping_exact "linux" "x86_64" ⟨by decide, by decide⟩
  exact ⟨h.2.1 (by decide), h.2.2.2⟩

/-- C3: for every well-formed metadata document with a string at path
`channels.Stable.version`, the resolver succeeds with exactly that string
(in particular the example body from the spec yields "124.0.6367.91"). -/
theorem resolver_returns_version_string (j : Json) (s : String)
    (h : ((j.index "channels").index "Stable").index "version" = Json.str s) :
    resolveFromBody (some j) = .ok s := by
  simp [resolveFromBody, resolveVersion, h, Json.asStr]

/-- Witness for C3 at the example body from the spec. -/
theorem resolver_returns_version_string_witness :
    resolveFromBody (some jStable) = .ok "124.0.6367.91" :=
  resolver_returns_version_string jStable "124.0.6367.91" rfl

/-- C4: for every valid JSON metadata document with no string at path
`channels.Stable.version`, the resolver fails with the missing-field error
(the `ok_or("Failed to read version")` value), not with the parse error
reserved for bodies that are not valid JSON. -/
theorem resolver_missing_field (j : Json)
    (h : (((j.index "channels").index "Stable").index "version").asStr = none) :
    resolveFromBody (some j) = .error (.missingField "Failed to read version") ∧
    resolveFromBody (some j) ≠ .error .parseError := by
  constructor
  · simp [resolveFromBody, resolveVersion, h]
  · simp [resolveFromBody, resolveVersion, h]

/-- Witness for C4 at a document whose Stable object has no version field. -/
theorem resolver_missing_field_witness :
    resolveFromBody (some jNoVersion)
        = .error (.missingField "Failed to read version") ∧
    resolveFromBody (some jNoVersion) ≠ .error .parseError :=
  resolver_missing_field jNoVersion rfl

/-- Helper: `as_str` answers `Some s` only on the JSON string `s`. -/
theorem asStr_eq_some {j : Json} {s : String} (h : j.asStr = some s) :
    j = .str s := by
  cases j <;> simp_all [Json.asStr]

/-- C9 counterexample: the metadata body
`{"channels":{"Stable":{"version":""}}}` is a response on which the resolver
succeeds with the empty string, so the output of the resolver is not always
non-empty. -/
theorem resolver_empty_version_cex :
    resolveFromBody (some jEmptyVersion) = .ok "" := rfl

/-- C9 amended: whenever the resolver succeeds, the returned string is
exactly the JSON string sitting at `channels.Stable.version`; in particular
it is non-empty if and only if that field is non-empty (the resolver itself
never checks emptiness). -/
theorem resolver_success_value (j : Json) (v : String)
    (h : resolveFromBody (some j) = .ok v) :
    ((j.index "channels").index "Stable").index "version" = Json.str v := by
  have h' : resolveVersion j = .ok v := h
  unfold resolveVersion at h'
  rcases hs : (((j.index "channels").index "Stable").index "version").asStr with _ | s
  · rw [hs] at h'
    simp at h'
  · rw [hs] at h'
    simp at h'
    exact h' ▸ asStr_eq_some hs

/-- Witness for the amended C9 claim at the body resolving to `999.0.0.0`. -/
theorem resolver_success_value_witness :
    ((jNine.index "channels").index "Stable").index "version"
        = Json.str "999.0.0.0" :=
  resolver_success_value jNine "999.0.0.0" rfl

/-- C1 counterexample: with the output directory already populated
(`envInstalled` answers every existence check with `true`), the call still
performs one network request — the metadata fetch precedes the existence
check in the source — so the request count of the short-circuit path is 1,
not the claimed 0. -/
theorem ensure_installed_performs_request_cex :
    ensure_latest_driver envInstalled "out"
      = (.ok ⟨"out/chromedriver-mac-arm64/chromedriver", "124.0.6367.91"⟩,
         ⟨1, 1, 0, []⟩) := rfl

/-- C1 amended: when the executable already exists at the computed path, the
install returns the descriptor without downloading: the trace shows exactly
one network request (the unconditional metadata fetch), one existence check,
no filesystem writes and no permission changes. -/
theorem ensure_installed_short_circuit (env : Env) (out_dir : String)
    (j : Json) (v p e z : String)
    (hm : env.metadata = .ok (some j))
    (hv : resolveVersion j = .ok v)
    (hp : platformTarget env.os env.arch = .ok (p, e, z))
    (hf : env.fsExists (out_dir ++ "/" ++ z ++ "/" ++ e) = true) :
    ensure_latest_driver env out_dir
      = (.ok ⟨out_dir ++ "/" ++ z ++ "/" ++ e, v⟩, ⟨1, 1, 0, []⟩) := by
  simp [ensure_latest_driver, hm, hv, hp, hf]

/-- Witness for the amended C1 claim at `envInstalled`. -/
theorem ensure_installed_short_circuit_witness :
    ensure_latest_driver envInstalled "home"
      = (.ok ⟨"home/chromedriver-mac-arm64/chromedriver", "124.0.6367.91"⟩,
         ⟨1, 1, 0, []⟩) :=
  ensure_installed_short_circuit envInstalled "home" jStable
    "124.0.6367.91" "mac-arm64" "chromedriver" "chromedriver-mac-arm64"
    rfl rfl rfl rfl

/-- C5: whenever the downloaded bytes are rejected by the zip
decoder/extractor, the install fails with the archive error and returns no
descriptor. -/
theorem malformed_archive_fails (env : Env) (out_dir : String) (j : Json)
    (v p e z : String) (bytes : List Nat)
    (hm : env.metadata = .ok (some j))
    (hv : resolveVersion j = .ok v)
    (hp : platformTarget env.os env.arch = .ok (p, e, z))
    (hf : env.fsExists (out_dir ++ "/" ++ z ++ "/" ++ e) = false)
    (hd : env.download (downloadUrl v p z) = .ok bytes)
    (hmk : env.mkdirOk = true)
    (hx : env.extract bytes out_dir = .error ()) :
    (ensure_latest_driver env out_dir).1 = .error .archiveError := by
  simp [ensure_latest_driver, hm, hv, hp, hf, hd, hmk, hx]

/-- Witness for C5 at `envBadZip`. -/
theorem malformed_archive_fails_witness :
    (ensure_latest_driver envBadZip "out").1 = .error .archiveError :=
  malformed_archive_fails envBadZip "out" jStable
    "124.0.6367.91" "mac-arm64" "chromedriver" "chromedriver-mac-arm64"
    [0, 1] rfl rfl rfl rfl rfl rfl rfl

/-- A second already-populated environment: same OS, arch, metadata and disk
state as `envInstalled`, but with different download/extract collaborators,
to exhibit that the descriptor does not depend on them. -/
def envInstalledAlt : Env :=
  ⟨"macos", "aarch64", .ok (some jStable), fun _ => true, fun _ => .ok [7],
    false, fun _ _ => .ok (), false, false⟩

/-- C6: the computed driver path is exactly the concatenation
`out_dir ++ "/" ++ zip_name ++ "/" ++ exec_name`, with no randomness or
timestamps: two calls made with the same out_dir, platform mapping and
resolved version while the executable exists return byte-identical
descriptors, even if every other collaborator behaves differently. -/
theorem driver_path_deterministic (env1 env2 : Env) (out_dir : String)
    (j : Json) (v p e z : String)
    (hm1 : env1.metadata = .ok (some j)) (hm2 : env2.metadata = .ok (some j))
    (hv : resolveVersion j = .ok v)
    (hp1 : platformTarget env1.os env1.arch = .ok (p, e, z))
    (hp2 : platformTarget env2.os env2.arch = .ok (p, e, z))
    (hf1 : env1.fsExists (out_dir ++ "/" ++ z ++ "/" ++ e) = true)
    (hf2 : env2.fsExists (out_dir ++ "/" ++ z ++ "/" ++ e) = true) :
    (ensure_latest_driver env1 out_dir).1
        = .ok ⟨out_dir ++ "/" ++ z ++ "/" ++ e, v⟩ ∧
    (ensure_latest_driver env1 out_dir).1 = (ensure_latest_driver env2 out_dir).1 := by
  simp [ensure_latest_driver, hm1, hm2, hv, hp1, hp2, hf1, hf2]

/-- Witness for C6: `envInstalled` and `envInstalledAlt` agree on the
descriptor. -/
theorem driver_path_deterministic_witness :
    (ensure_latest_driver envInstalled "out").1
        = .ok ⟨"out/chromedriver-mac-arm64/chromedriver", "124.0.6367.91"⟩ ∧
    (ensure_latest_driver envInstalled "out").1
        = (ensure_latest_driver envInstalledAlt "out").1 :=
  driver_path_deterministic envInstalled envInstalledAlt "out" jStable
    "124.0.6367.91" "mac-arm64" "chromedriver" "chromedriver-mac-arm64"
    rfl rfl rfl rfl rfl rfl rfl

/-- C7: on unix, a fresh install (nothing on disk, download and extraction
succeed) performs exactly one `set_permissions` call, on the path
`<out_dir>/<zip_name>/<exec_name>`, with mode 493 = 0o755, and then returns
the descriptor.  The hypothesis `hjoin` states that `Path::join` on this
out_dir agrees with the `format!`-built path, which holds for every out_dir
that is neither empty nor ends in a slash. -/
theorem chmod_sets_mode_0755 (env : Env) (out_dir : String) (j : Json)
    (v p e z : String) (bytes : List Nat)
    (hm : env.metadata = .ok (some j))
    (hv : resolveVersion j = .ok v)
    (hp : platformTarget env.os env.arch = .ok (p, e, z))
    (hf : env.fsExists (out_dir ++ "/" ++ z ++ "/" ++ e) = false)
    (hd : env.download (downloadUrl v p z) = .ok bytes)
    (hmk : env.mkdirOk = true)
    (hx : env.extract bytes out_dir = .ok ())
    (hu : env.isUnix = true)
    (hc : env.chmodOk = true)
    (hjoin : pathJoin (pathJoin out_dir z) e = out_dir ++ "/" ++ z ++ "/" ++ e) :
    (ensure_latest_driver env out_dir).2.chmods
        = [(out_dir ++ "/" ++ z ++ "/" ++ e, 493)] ∧
    (ensure_latest_driver env out_dir).1
        = .ok ⟨out_dir ++ "/" ++ z ++ "/" ++ e, v⟩ := by
  simp [ensure_latest_driver, hm, hv, hp, hf, hd, hmk, hx, hu, hc, hjoin]

/-- Witness for C7 at `envFresh`. -/
theorem chmod_sets_mode_0755_witness :
    (ensure_latest_driver envFresh "out").2.chmods
        = [("out/chromedriver-mac-arm64/chromedriver", 493)] ∧
    (ensure_latest_driver envFresh "out").1
        = .ok ⟨"out/chromedriver-mac-arm64/chromedriver", "124.0.6367.91"⟩ :=
  chmod_sets_mode_0755 envFresh "out" jStable
    "124.0.6367.91" "mac-arm64" "chromedriver" "chromedriver-mac-arm64"
    [80, 75] rfl rfl rfl rfl rfl rfl rfl rfl rfl rfl

/-- C10: when the executable already exists, the returned version field is
the version freshly resolved from the metadata response of this call, never read
from the on-disk binary: over an identical disk state, two calls whose
metadata responses resolve to different versions report those different
versions. -/
theorem version_reported_is_fresh (env1 env2 : Env) (out_dir : String)
    (j1 j2 : Json) (v1 v2 p e z : String)
    (hm1 : env1.metadata = .ok (some j1)) (hm2 : env2.metadata = .ok (some j2))
    (hv1 : resolveVersion j1 = .ok v1) (hv2 : resolveVersion j2 = .ok v2)
    (hp1 : platformTarget env1.os env1.arch = .ok (p, e, z))
    (hp2 : platformTarget env2.os env2.arch = .ok (p, e, z))
    (hfs : env1.fsExists = env2.fsExists)
    (hf1 : env1.fsExists (out_dir ++ "/" ++ z ++ "/" ++ e) = true) :
    (ensure_latest_driver env1 out_dir).1.map DriverInfo.version = .ok v1 ∧
    (ensure_latest_driver env2 out_dir).1.map DriverInfo.version = .ok v2 := by
  have hf2 : env2.fsExists (out_dir ++ "/" ++ z ++ "/" ++ e) = true := by
    rw [← hfs]
    exact hf1
  simp [ensure_latest_driver, hm1, hm2, hv1, hv2, hp1, hp2, hf1, hf2, Except.map]

/-- Witness for C10: same disk, metadata `124.0.6367.91` versus `999.0.0.0`,
different reported versions. -/
theorem version_reported_is_fresh_witness :
    (ensure_latest_driver envInstalled "out").1.map DriverInfo.version
        = .ok "124.0.6367.91" ∧
    (ensure_latest_driver envInstalledNine "out").1.map DriverInfo.version
        = .ok "999.0.0.0" :=
  version_reported_is_fresh envInstalled envInstalledNine "out" jStable jNine
    "124.0.6367.91" "999.0.0.0" "mac-arm64" "chromedriver"
    "chromedriver-mac-arm64" rfl rfl rfl rfl rfl rfl rfl rfl

/-- C8: the probe fails with the process error exactly on a spawn/wait
failure (the only failure the OS model can produce), and when the subprocess
runs to completion with any exit status — zero or not — the probe succeeds,
reporting the status only as a diagnostic. -/
theorem check_version_status_policy :
    (check_version (.error ())).1 = .error .processError ∧
    ∀ status : Int, check_version (.ok status) = (.ok (), some status) := by
  exact ⟨rfl, fun _ => rfl⟩
